import Mathlib

/-!
Verification of the LX Eos variometer driver (XCSoar, `src/Device/Driver/LX_EOS`):
a shallow embedding of the driver's protocol engine — the CRC8 checksum,
sentence parsing, settings synchronization, the ACK handshake, and the
flight-list / flight-download orchestration — together with theorems settling
the specified properties.

Machine integers are modelled as `Nat` with explicit `% 256` (resp. `% 65536`)
at the points where the C++ types truncate; floating-point values carried by
NMEA sentences and settings are modelled as exact rationals `ℚ` (the range
checks and arithmetic at issue are exact in this fragment).  Fallible port
I/O is modelled by `Except`/`Option`-valued oracles supplied as inputs.
-/

namespace LXEos

/-! CRC8 engine (`LXEosDevice::CalculateCRC`, LXEosDevice.cpp:140-156) -/

/-- One bit step of the inner loop of `CalculateCRC`: `tmp = result ^ d;
result <<= 1; if ((tmp & 0x80) != 0) result ^= 0x69;` where `result` and `d`
are `uint8_t` (the left shift wraps modulo 256). -/
def crcBit (r d : Nat) : Nat :=
  if (r ^^^ d) &&& 0x80 ≠ 0 then (r * 2 % 256) ^^^ 0x69 else r * 2 % 256

/-- One byte of the outer loop of `CalculateCRC`: eight bit steps, the data
byte `d` shifting left (wrapping modulo 256, as the `uint8_t` shift does)
between steps. -/
def crcByte (r d : Nat) : Nat :=
  ((List.range 8).foldl (fun p _ => (crcBit p.1 p.2, p.2 * 2 % 256)) (r, d % 256)).1

/-- Embedding of `CalculateCRC(msg, len, initial)`: fold `crcByte` over the
message bytes starting from the seed.  The seed and each data byte pass
through the `uint8_t` casts of the source, modelled by `% 256`. -/
def CalculateCRC (msg : List Nat) (initial : Nat) : Nat :=
  msg.foldl crcByte (initial % 256)

/-! Settings synchronizer (LXEosDevice.cpp:42-95, LXEosDevice.hpp:98-104)

The mirror `vario_settings` of the device's last known settings, and the two
pilot-originated write paths `PutMacCready` / `PutBugs`, each of which mutates
one field of the mirror and then calls `SendNewSettings`. -/

/-- Embedding of `struct VarioSettings` (LXEosDevice.hpp:98-104), with the
same defaults as the field values in the header. -/
structure VarioSettings where
  mc : ℚ := 0
  bugs : ℚ := 0
  bal : ℚ := 1
  uptodate : Bool := false
deriving DecidableEq

/-- A sentence written to the port.  The only outbound settings sentence is
the one formatted by `SendNewSettings` (LXEosDevice.cpp:84-89) from the
template `PFLX2,%.1f,%.2f,%.0f,,,,,` applied to `(mc, bal, bugs)`; the
constructor records the three formatted values. -/
inductive TxSentence
  | pflx2 (mc bal bugs : ℚ)
deriving DecidableEq

/-- Embedding of `SendNewSettings` (LXEosDevice.cpp:79-95): when the mirror is
up to date, format the `PFLX2` sentence from it, transmit it and return
`true`; otherwise return `false` having transmitted nothing.  The second
component is the list of sentences written to the port during the call. -/
def SendNewSettings (s : VarioSettings) : Bool × List TxSentence :=
  if s.uptodate = true then (true, [TxSentence.pflx2 s.mc s.bal s.bugs])
  else (false, [])

/-- Embedding of `PutMacCready` (LXEosDevice.cpp:42-48): overwrite the `mc`
field of the mirror, then attempt transmission.  Returns the result flag, the
mirror after the call, and the port traffic. -/
def PutMacCready (mc : ℚ) (s : VarioSettings) : Bool × VarioSettings × List TxSentence :=
  let s' := { s with mc := mc }
  ((SendNewSettings s').1, s', (SendNewSettings s').2)

/-- Embedding of `PutBugs` (LXEosDevice.cpp:50-56): overwrite the `bugs`
field of the mirror with `(1.0 - bugs) * 100.0`, then attempt transmission. -/
def PutBugs (bugs : ℚ) (s : VarioSettings) : Bool × VarioSettings × List TxSentence :=
  let s' := { s with bugs := (1 - bugs) * 100 }
  ((SendNewSettings s').1, s', (SendNewSettings s').2)

/-! Sentence decoders (LXEosParser.cpp)

An NMEA input line is modelled as the list of its comma-separated fields
after the sentence identifier; each field is `some q` when it parses to the
number `q` and `none` when it is empty or non-numeric.  This is the view
`NMEAInputLine::ReadChecked` (external to the driver directory) exposes to
the decoders. -/

/-- One field of an NMEA input line, as consumed by `ReadChecked`. -/
abbrev Field := Option ℚ

/-- Model of `line.ReadChecked(value)`: consume the next field; on a numeric
field return `true` and its value, otherwise return `false` leaving the
destination variable unchanged.  Returns the flag, the (possibly unchanged)
destination and the remaining fields. -/
def readChecked : List Field → ℚ → Bool × ℚ × List Field
  | [], v => (false, v, [])
  | some q :: rest, _ => (true, q, rest)
  | none :: rest, v => (false, v, rest)

/-- The slice of XCSoar's `NMEAInfo` instrument state written by the LX Eos
sentence decoders; `none` means the corresponding `Provide…` setter has not
been called. -/
structure NMEAInfoM where
  baroAltitude : Option ℚ := none
  trueAirspeed : Option ℚ := none
  totalEnergyVario : Option ℚ := none
  wind : Option (ℚ × ℚ) := none
  mcSetting : Option ℚ := none
  bugsSetting : Option ℚ := none
deriving DecidableEq

/-- Unit conversion `Units::ToSysUnit(v, Unit::KILOMETER_PER_HOUR)`:
kilometres per hour to metres per second. -/
def kmhToMs (v : ℚ) : ℚ := v * 5 / 18

/-- The six FIR filter coefficients of the vario low-pass filter
(LXEosParser.cpp:52), as exact decimal constants. -/
def firCoefficients : List ℚ := [-0.0421, 0.1628, 0.3793, 0.3793, 0.1628, -0.0421]

/-- One iteration of the vario filter loop of `LXWP0` (LXEosParser.cpp:52-55).
The state is `(vario_ok, vario, value, fields)`; the C++
`vario_ok = vario_ok && line.ReadChecked(value)` short-circuits, so once the
flag is false no further field is consumed and `value` keeps its last
content, while `vario += value * fir_b` runs unconditionally. -/
def varioFIRStep (st : Bool × ℚ × ℚ × List Field) (b : ℚ) : Bool × ℚ × ℚ × List Field :=
  let r := if st.1 then readChecked st.2.2.2 st.2.2.1 else (false, st.2.2.1, st.2.2.2)
  (st.1 && r.1, st.2.1 + r.2.1 * b, r.2.1, r.2.2)

/-- The vario filter loop of `LXWP0`: fold `varioFIRStep` over the six FIR
coefficients starting from `vario_ok = true`, `vario = 0`, `value = 0`.
Returns the flag, the filtered value and the remaining fields. -/
def varioFIR (fields : List Field) : Bool × ℚ × List Field :=
  let st := firCoefficients.foldl varioFIRStep (true, 0, 0, fields)
  (st.1, st.2.1, st.2.2.2)

/-- The wind section of `LXWP0` (LXEosParser.cpp:63-72): read direction then
speed (short-circuiting, both-or-neither), providing the external wind only
when both parse. -/
def windSection (fields : List Field) (info : NMEAInfoM) : NMEAInfoM :=
  let r := readChecked fields 0
  let r2 := if r.1 then readChecked r.2.2 0 else (false, 0, r.2.2)
  if r.1 && r2.1 then { info with wind := some (r.2.1, kmhToMs r2.2.1) } else info

/-- Embedding of `LXWP0` (LXEosParser.cpp:13-75).  Field 0 is the logger
flag (skipped), field 1 the true airspeed (km/h), field 2 the true altitude,
fields 3-8 the six vario samples, then heading and one undocumented field
(both skipped), then wind direction and speed.  An out-of-range airspeed
(outside [-50, 400]) rejects the whole sentence before any state is
touched. -/
def LXWP0 (fields : List Field) (info : NMEAInfoM) : Bool × NMEAInfoM :=
  let fields := fields.drop 1
  let r := readChecked fields 0
  let tas_ok := r.1
  let airspeed := r.2.1
  let fields := r.2.2
  if tas_ok ∧ (airspeed < -50 ∨ airspeed > 400) then
    (false, info)
  else
    let r := readChecked fields 0
    let alt_ok := r.1
    let altitude := r.2.1
    let fields := r.2.2
    let info := if alt_ok then { info with baroAltitude := some altitude } else info
    let info := if tas_ok then { info with trueAirspeed := some (kmhToMs airspeed) } else info
    let v := varioFIR fields
    let info := if v.1 then { info with totalEnergyVario := some v.2.1 } else info
    (true, windSection (v.2.2.drop 2) info)

/-- Conversion of the device's bugs percentage to the application's fraction,
as computed in `LXWP2` (LXEosParser.cpp:138):
`bugs_xcsoar = static_cast<double>(100 - bugs) / 100.0`. -/
def bugsToXcsoar (bugs : ℚ) : ℚ := (100 - bugs) / 100

/-- Embedding of `LXWP2` (LXEosParser.cpp:96-147): read MacCready, ballast
ratio and bugs percent, failing closed (no mutation) if any of the three is
missing; on success provide MacCready and the converted bugs fraction to the
instrument state and replace the whole settings mirror, marking it up to
date. -/
def LXWP2 (fields : List Field) (info : NMEAInfoM) (s : VarioSettings) :
    Bool × NMEAInfoM × VarioSettings :=
  let r := readChecked fields 0
  if ¬ r.1 then (false, info, s) else
  let mc := r.2.1
  let r2 := readChecked r.2.2 0
  if ¬ r2.1 then (false, info, s) else
  let bal := r2.2.1
  let r3 := readChecked r2.2.2 0
  if ¬ r3.1 then (false, info, s) else
  let bugs := r3.2.1
  let info := { info with mcSetting := some mc, bugsSetting := some (bugsToXcsoar bugs) }
  (true, info, { mc := mc, bal := bal, bugs := bugs, uptodate := true })

/-- Embedding of `ParseNMEA` (LXEosDevice.cpp:58-77) restricted to sentences
whose identifier is `$LXWP0`: the NMEA checksum is verified first
(`VerifyNMEAChecksum` lives outside the driver directory and is modelled by
the Boolean `checksumOk`); an invalid checksum rejects the sentence before
any dispatch, otherwise the fields after the identifier go to `LXWP0`. -/
def ParseNMEA_LXWP0 (checksumOk : Bool) (fields : List Field) (info : NMEAInfoM) :
    Bool × NMEAInfoM :=
  if checksumOk then LXWP0 fields info else (false, info)

/-! ACK handshake (`LXEosDevice::WriteAndWaitForACK`, LXEosDevice.cpp:97-115)

Modelled from the spec: the port primitives (`FullFlush`, `FullWrite`,
`WaitForByte`) live outside the driver directory; blocking port calls signal
timeouts and transport faults by raising, which the spec's transport model
("flush/read/write with timeouts", faults caught and converted to booleans by
try/catch) prescribes.  A call's environment is summarised by the outcome of
each primitive. -/

/-- A fault raised by a port primitive: a timeout or a transport error. -/
inductive PortFault
  | timeout
  | error
deriving DecidableEq

/-- Transport-level outcomes visible to one `WriteAndWaitForACK` call:
the outcome of `port.FullFlush`, of `port.FullWrite`, and what the wait for
the handshake byte observes (`some b` means byte `b` arrives within the read
timeout, `none` means nothing arrives in time). -/
structure AckPortOutcome where
  flush : Except PortFault Unit
  write : Except PortFault Unit
  handshake : Option Nat

/-- Modelled from the spec: `port.WaitForByte(expected)` succeeds exactly when
the expected byte arrives within the timeout; a different byte (e.g. the NACK
0x15) or a timeout raises. -/
def waitForByte (expected : Nat) (handshake : Option Nat) : Except PortFault Unit :=
  match handshake with
  | some b => if b = expected then Except.ok () else Except.error PortFault.error
  | none => Except.error PortFault.timeout

/-- Embedding of `WriteAndWaitForACK` (LXEosDevice.cpp:97-115): `FullFlush`
and `FullWrite` are called outside any try/catch, so their faults propagate;
only the wait for the ACK byte 0x06 is guarded, its failure returning
`false`. -/
def WriteAndWaitForACK (p : AckPortOutcome) : Except PortFault Bool :=
  match p.flush with
  | Except.error e => Except.error e
  | Except.ok _ =>
    match p.write with
    | Except.error e => Except.error e
    | Except.ok _ =>
      match waitForByte 0x06 p.handshake with
      | Except.ok _ => Except.ok true
      | Except.error _ => Except.ok false

/-! Flight enumeration and download (LXEosDownload.cpp)

The binary exchanges `GetNumberOfFlights`, `GetFlightInfo` and
`GetFlightLogBlock` read their responses from the port; their outcomes are
therefore inputs of the orchestration, supplied as oracles: `none` is a
failed exchange (NACK, timeout, CRC mismatch or block-id mismatch), `some x`
a successful one with payload `x`.  The payload of a flight-info record is
abstract to the orchestration and modelled as `Nat`. -/

/-- First success of `f` among `count` attempts starting at attempt `i`. -/
def firstSome (f : Nat → Option (List Nat)) : Nat → Nat → Option (List Nat)
  | 0, _ => none
  | k+1, i =>
    match f i with
    | some x => some x
    | none => firstSome f k (i+1)

/-- First success of `f` among `count` attempts starting at attempt `i`
(flight-info variant, abstract payload). -/
def firstSomeNat (f : Nat → Option Nat) : Nat → Nat → Option Nat
  | 0, _ => none
  | k+1, i =>
    match f i with
    | some x => some x
    | none => firstSomeNat f k (i+1)

/-- The 5-attempt retry loop of LXEosDownload.cpp:34-38:
result of the first successful attempt, `none` when all five fail. -/
def retry5 (f : Nat → Option Nat) : Option Nat := firstSomeNat f 5 0

/-- The 5-attempt retry loop of LXEosDownload.cpp:77-81 (block variant). -/
def retry5Block (f : Nat → Option (List Nat)) : Option (List Nat) := firstSome f 5 0

/-- Result of `ReadFlightList`: the returned flag, the entries appended to
`flight_list`, and whether `port.StartRxThread()` was reached before
returning. -/
structure FlightListResult where
  success : Bool
  flights : List Nat
  rxRunning : Bool
deriving DecidableEq

/-- The enumeration loop of `ReadFlightList` (LXEosDownload.cpp:30-45) over
the remaining `k` indices, `i` indices already done, `acc` the entries
appended so far: retry the flight-info request up to 5 times for index
`i + 1`; on success append and continue, on exhaustion stop with failure
keeping the accumulated entries. -/
def readFlightListLoop (info : Nat → Nat → Option Nat) : Nat → Nat → List Nat → Bool × List Nat
  | 0, _, acc => (true, acc)
  | k+1, i, acc =>
    match retry5 (fun a => info (i+1) a) with
    | some fl => readFlightListLoop info k (i+1) (acc ++ [fl])
    | none => (false, acc)

/-- Embedding of `ReadFlightList` (LXEosDownload.cpp:13-52).  `numFlights` is
the outcome of the single `GetNumberOfFlights` exchange; `info i a` the
outcome of attempt `a` of the flight-info request for 1-based index `i`.
The Rx thread is stopped on entry and restarted before every return
(straight-line code on both paths). -/
def ReadFlightList (numFlights : Option Nat) (info : Nat → Nat → Option Nat) :
    FlightListResult :=
  match numFlights with
  | none => { success := false, flights := [], rxRunning := true }
  | some n =>
    let r := readFlightListLoop info n 0 []
    { success := r.1, flights := r.2, rxRunning := true }

/-- Result of `DownloadFlight`: the returned flag, the blocks appended (in
order) to the buffered output sink by `bos.Write`, whether `fos.Commit()`
was reached, and whether `port.StartRxThread()` was reached before
returning. -/
structure DownloadResult where
  success : Bool
  sink : List (List Nat)
  committed : Bool
  rxRunning : Bool
deriving DecidableEq

/-- The block loop of `DownloadFlight` (LXEosDownload.cpp:73-99), with fuel
bounding the number of iterations observed (`none` when the bound is hit: the
C++ loop does not otherwise terminate on a run of zero-sized blocks).  Each
iteration retries the block request up to 5 times; exhaustion breaks out to
the common cleanup (no commit, Rx thread restarted).  A successful block is
first written to the sink (line 86); only then is its size checked against
the remaining byte count (line 89), and a violation returns `false`
immediately — before `port.StartRxThread()` (line 110) and before any
commit.  The block id is a `uint16_t`, wrapping modulo 65536 in the request. -/
def downloadLoop (blockOf : Nat → Nat → Option (List Nat)) :
    Nat → Nat → Nat → List (List Nat) → Option DownloadResult
  | 0, _, _, _ => none
  | fuel+1, block_id, bytes_remaining, sink =>
    if bytes_remaining > 0 then
      match retry5Block (fun a => blockOf (block_id % 65536) a) with
      | none =>
        some { success := false, sink := sink, committed := false, rxRunning := true }
      | some block =>
        let sink := sink ++ [block]
        if block.length > bytes_remaining then
          some { success := false, sink := sink, committed := false, rxRunning := false }
        else
          downloadLoop blockOf fuel (block_id+1) (bytes_remaining - block.length) sink
    else
      some { success := true, sink := sink, committed := true, rxRunning := true }

/-- Embedding of `DownloadFlight` (LXEosDownload.cpp:54-112): download blocks
0, 1, 2, … until the remaining byte count of `fileSize` reaches zero.
`blockOf id a` is the outcome of attempt `a` of the block request for block
`id` (covering NACK/timeout/CRC/id-mismatch failures inside
`GetFlightLogBlock`). -/
def DownloadFlight (fuel fileSize : Nat) (blockOf : Nat → Nat → Option (List Nat)) :
    Option DownloadResult :=
  downloadLoop blockOf fuel 0 fileSize []

/-- A device behaviour for `DownloadFlight` against `file_size = 25`:
block 0 has 10 bytes, block 1 has 20 bytes — the second block's size exceeds
the 15 bytes then outstanding. -/
def oversizeBlockDevice : Nat → Nat → Option (List Nat) :=
  fun bid _ =>
    if bid = 0 then some (List.replicate 10 7)
    else if bid = 1 then some (List.replicate 20 7)
    else none

/-- A device behaviour for `DownloadFlight` against `file_size = 25`:
block 0 has 10 bytes, block 1 has 16 bytes (one byte more than the 15 then
outstanding). -/
def oversizeBlockDevice2 : Nat → Nat → Option (List Nat) :=
  fun bid _ =>
    if bid = 0 then some (List.replicate 10 3)
    else if bid = 1 then some (List.replicate 16 3)
    else none

/-! Theorems -/

theorem crcBit_lt (r d : Nat) : crcBit r d < 256 := by
  unfold crcBit
  split
  · have h1 : r * 2 % 256 < 2 ^ 8 := Nat.mod_lt _ (by norm_num)
    have h2 : (0x69 : Nat) < 2 ^ 8 := by norm_num
    simpa using Nat.xor_lt_two_pow h1 h2
  · exact Nat.mod_lt _ (by norm_num)

theorem crcByte_lt (r d : Nat) : crcByte r d < 256 :=
  crcBit_lt _ _

theorem CalculateCRC_lt (msg : List Nat) (initial : Nat) : CalculateCRC msg initial < 256 := by
  unfold CalculateCRC
  induction msg generalizing initial with
  | nil => exact Nat.mod_lt _ (by norm_num)
  | cons b bs ih =>
      simp only [List.foldl_cons]
      have := ih (crcByte (initial % 256) b)
      simpa [Nat.mod_eq_of_lt (crcByte_lt (initial % 256) b)] using this

/-- Chaining: the CRC of a concatenation equals the CRC of the second part
seeded with the CRC of the first part. -/
theorem CalculateCRC_append (a b : List Nat) (s : Nat) :
    CalculateCRC (a ++ b) s = CalculateCRC b (CalculateCRC a s) := by
  show (a ++ b).foldl crcByte (s % 256) = b.foldl crcByte (CalculateCRC a s % 256)
  rw [List.foldl_append, Nat.mod_eq_of_lt (CalculateCRC_lt a s)]
  rfl

set_option maxRecDepth 4000 in
theorem crcByte_self_fin : ∀ c : Fin 256, crcByte c.1 c.1 = 0 := by decide

theorem crcByte_self (c : Nat) (h : c < 256) : crcByte c c = 0 :=
  crcByte_self_fin ⟨c, h⟩

theorem CalculateCRC_singleton (c s : Nat) :
    CalculateCRC [c] s = crcByte (s % 256) c := rfl

/-- C4.  For every byte sequence `m`, appending its own CRC trailer
`CalculateCRC m 0xFF` and checksumming the whole yields 0; and the chained
computation — header seeded `0xFF`, then payload seeded with the header
stage's output, then the single correct trailing byte — also yields 0. -/
theorem C4_crc_trailer_chains_to_zero :
    (∀ m : List Nat, CalculateCRC (m ++ [CalculateCRC m 0xFF]) 0xFF = 0) ∧
    (∀ hdr payload : List Nat,
      CalculateCRC [CalculateCRC (hdr ++ payload) 0xFF]
        (CalculateCRC payload (CalculateCRC hdr 0xFF)) = 0) := by
  have key : ∀ m : List Nat, CalculateCRC (m ++ [CalculateCRC m 0xFF]) 0xFF = 0 := by
    intro m
    set c := CalculateCRC m 0xFF with hc
    have hlt : c < 256 := CalculateCRC_lt m 0xFF
    rw [CalculateCRC_append, CalculateCRC_singleton, ← hc, Nat.mod_eq_of_lt hlt]
    exact crcByte_self c hlt
  refine ⟨key, fun hdr payload => ?_⟩
  have h1 := key (hdr ++ payload)
  rw [CalculateCRC_append (hdr ++ payload)] at h1
  nth_rewrite 2 [CalculateCRC_append hdr payload] at h1
  exact h1

/-- C6.  `SendNewSettings` returns `true` and transmits exactly the `PFLX2`
sentence built from the settings mirror (`PFLX2,<mc:%.1f>,<ballast:%.2f>,
<bugs:%.0f>,,,,,` with the mirror's `mc`, `bal`, `bugs`) when the mirror is
up to date, and returns `false` transmitting nothing when it is not. -/
theorem C6_send_new_settings (s : VarioSettings) :
    SendNewSettings s =
      (s.uptodate,
       if s.uptodate then [TxSentence.pflx2 s.mc s.bal s.bugs] else []) := by
  unfold SendNewSettings
  cases h : s.uptodate <;> simp [h]

/-- C10.  When the mirror is not up to date, `PutMacCready mc` still
overwrites the mirror's `mc` field (and `PutBugs b` still overwrites the
mirror's `bugs` field with `(1 - b) * 100`) before returning `false` with
nothing transmitted: the mirror mutation persists after the failure. -/
theorem C10_put_mutates_mirror_despite_failure (mc b : ℚ) (s : VarioSettings)
    (h : s.uptodate = false) :
    PutMacCready mc s = (false, { s with mc := mc }, []) ∧
    PutBugs b s = (false, { s with bugs := (1 - b) * 100 }, []) := by
  unfold PutMacCready PutBugs SendNewSettings
  simp [h]

/-- Witness for C10 at a concrete mirror: the default mirror is not up to
date, `PutMacCready 2` leaves `mc = 2` behind and `PutBugs (4/5)` leaves
`bugs = 20` behind, both returning `false` without transmitting. -/
theorem C10_witness :
    ({ } : VarioSettings).uptodate = false ∧
    PutMacCready 2 { } = (false, { mc := 2 }, []) ∧
    PutBugs (4/5) { } = (false, { bugs := (1 - 4/5) * 100 }, []) :=
  ⟨rfl, (C10_put_mutates_mirror_despite_failure 2 (4/5) { } rfl).1,
        (C10_put_mutates_mirror_despite_failure 2 (4/5) { } rfl).2⟩

/-- C8.  The bugs conversion round-trips: decoding a device bugs percent `p`
to the application fraction `(100 - p)/100` (as `LXWP2` provides it to the
instrument state) and re-encoding it through `PutBugs` as
`(1 - fraction) * 100` stores `p` in the mirror again, exactly. -/
theorem C8_bugs_roundtrip (p mcv balv : ℚ) (rest : List Field)
    (info : NMEAInfoM) (s t : VarioSettings) :
    ((LXWP2 (some mcv :: some balv :: some p :: rest) info s).2.1).bugsSetting
        = some (bugsToXcsoar p) ∧
    ((PutBugs (bugsToXcsoar p) t).2.1).bugs = p := by
  constructor
  · simp [LXWP2, readChecked]
  · show (1 - bugsToXcsoar p) * 100 = p
    unfold bugsToXcsoar
    ring

/-- Counterexample to C3 as stated: a frame-write fault is not converted to a
boolean — with the flush succeeding, the write timing out, and an ACK even
sitting in the input, `WriteAndWaitForACK` propagates the fault past its
boundary instead of returning `false`. -/
theorem C3_counterexample :
    WriteAndWaitForACK
        { flush := Except.ok (), write := Except.error PortFault.timeout,
          handshake := some 0x06 }
      = Except.error PortFault.timeout := rfl

/-- C3 (amended).  Only the handshake wait is guarded: whenever the flush and
the frame write complete without fault, `WriteAndWaitForACK` returns a
boolean — `true` exactly when the ACK byte 0x06 is received within the read
timeout, `false` for NACK, any other byte, or a timeout; but a fault raised
by the flush or the write propagates past its boundary. -/
theorem C3_ack_to_boolean_after_write (p : AckPortOutcome)
    (hf : p.flush = Except.ok ()) (hw : p.write = Except.ok ()) :
    WriteAndWaitForACK p = Except.ok (decide (p.handshake = some 0x06)) := by
  unfold WriteAndWaitForACK waitForByte
  rw [hf, hw]
  cases h : p.handshake with
  | none => simp
  | some b =>
      by_cases hb : b = 0x06 <;> simp [hb]

/-- Witness for the amended C3: with flush and write succeeding and the NACK
byte 0x15 arriving, the call returns `false` (no fault escapes). -/
theorem C3_witness :
    ({ flush := Except.ok (), write := Except.ok (),
       handshake := some 0x15 } : AckPortOutcome).flush = Except.ok () ∧
    WriteAndWaitForACK
        { flush := Except.ok (), write := Except.ok (), handshake := some 0x15 }
      = Except.ok false :=
  ⟨rfl, C3_ack_to_boolean_after_write
      { flush := Except.ok (), write := Except.ok (), handshake := some 0x15 } rfl rfl⟩

/-- C5.  A `$LXWP0` sentence with a valid checksum whose airspeed field
parses to a value outside [-50, 400] is rejected in full: parsing returns
`false` and the instrument state is returned exactly as it was — the range
check fires before any other field is applied. -/
theorem C5_airspeed_range_rejects_whole_sentence (f0 : Field) (a : ℚ)
    (rest : List Field) (info : NMEAInfoM) (h : a < -50 ∨ a > 400) :
    ParseNMEA_LXWP0 true (f0 :: some a :: rest) info = (false, info) := by
  unfold ParseNMEA_LXWP0 LXWP0
  simp [readChecked, h]

/-- Witness for C5: airspeed 500 is out of range and the sentence leaves the
(default) instrument state untouched, returning failure. -/
theorem C5_witness :
    ((500 : ℚ) < -50 ∨ (500 : ℚ) > 400) ∧
    ParseNMEA_LXWP0 true [some 1, some 500, some 1000, some 1] { } = (false, { }) :=
  ⟨Or.inr (by norm_num),
   C5_airspeed_range_rejects_whole_sentence (some 1) 500 [some 1000, some 1] { }
     (Or.inr (by norm_num))⟩

theorem windSection_totalEnergyVario (fields : List Field) (info : NMEAInfoM) :
    (windSection fields info).totalEnergyVario = info.totalEnergyVario := by
  unfold windSection
  simp [apply_ite (fun i => NMEAInfoM.totalEnergyVario i)]

/-- Projection of `LXWP0` onto the total-energy-vario output: when the
sentence is not rejected by the airspeed range check, the vario field of the
result is the FIR filter output when the filter flag is set and the input
state's value otherwise. -/
theorem LXWP0_totalEnergyVario (f0 f1 f2 : Field) (tail : List Field)
    (info : NMEAInfoM) (htas : ∀ a : ℚ, f1 = some a → -50 ≤ a ∧ a ≤ 400) :
    (LXWP0 (f0 :: f1 :: f2 :: tail) info).2.totalEnergyVario =
      (if (varioFIR tail).1 then some (varioFIR tail).2.1
       else info.totalEnergyVario) := by
  rcases f1 with _ | a
  · rcases f2 with _ | alt <;>
      simp [LXWP0, readChecked, windSection_totalEnergyVario,
        apply_ite (fun i => NMEAInfoM.totalEnergyVario i)]
  · have hb := htas a rfl
    have hna : ¬(a < -50 ∨ a > 400) := by
      push_neg
      exact ⟨hb.1, hb.2⟩
    rcases f2 with _ | alt <;>
      simp [LXWP0, readChecked, hna, windSection_totalEnergyVario,
        apply_ite (fun i => NMEAInfoM.totalEnergyVario i)]

theorem varioFIR_all_some (v1 v2 v3 v4 v5 v6 : ℚ) (rest : List Field) :
    varioFIR (some v1 :: some v2 :: some v3 :: some v4 :: some v5 :: some v6 :: rest) =
      (true, 0 + v1 * (-0.0421) + v2 * 0.1628 + v3 * 0.3793 + v4 * 0.3793
        + v5 * 0.1628 + v6 * (-0.0421), rest) := rfl

theorem varioFIR_ok_iff (w1 w2 w3 w4 w5 w6 : Field) (rest : List Field) :
    (varioFIR (w1 :: w2 :: w3 :: w4 :: w5 :: w6 :: rest)).1 = true ↔
      (w1 ≠ none ∧ w2 ≠ none ∧ w3 ≠ none ∧ w4 ≠ none ∧ w5 ≠ none ∧ w6 ≠ none) := by
  rcases w1 with _ | v1 <;> rcases w2 with _ | v2 <;> rcases w3 with _ | v3 <;>
    rcases w4 with _ | v4 <;> rcases w5 with _ | v5 <;> rcases w6 with _ | v6 <;>
    simp [varioFIR, varioFIRStep, firCoefficients, readChecked]

/-- C9.  In `LXWP0` parsing (of a sentence not rejected by the airspeed range
check), the total-energy vario is emitted if and only if all six vario sample
fields parse, and the emitted value is the dot product of the six samples
with the FIR coefficients `[-0.0421, 0.1628, 0.3793, 0.3793, 0.1628,
-0.0421]` (exactly, in the rational model). -/
theorem C9_vario_fir_filter (f0 f1 f2 w1 w2 w3 w4 w5 w6 : Field)
    (rest : List Field) (info : NMEAInfoM)
    (htas : ∀ a : ℚ, f1 = some a → -50 ≤ a ∧ a ≤ 400)
    (hv : info.totalEnergyVario = none) :
    ((LXWP0 (f0 :: f1 :: f2 :: w1 :: w2 :: w3 :: w4 :: w5 :: w6 :: rest)
        info).2.totalEnergyVario ≠ none
      ↔ (w1 ≠ none ∧ w2 ≠ none ∧ w3 ≠ none ∧ w4 ≠ none ∧ w5 ≠ none ∧ w6 ≠ none)) ∧
    (∀ v1 v2 v3 v4 v5 v6 : ℚ, w1 = some v1 → w2 = some v2 → w3 = some v3 →
      w4 = some v4 → w5 = some v5 → w6 = some v6 →
      (LXWP0 (f0 :: f1 :: f2 :: w1 :: w2 :: w3 :: w4 :: w5 :: w6 :: rest)
          info).2.totalEnergyVario
        = some (v1 * (-0.0421) + v2 * 0.1628 + v3 * 0.3793 + v4 * 0.3793
            + v5 * 0.1628 + v6 * (-0.0421))) := by
  have hproj := LXWP0_totalEnergyVario f0 f1 f2
    (w1 :: w2 :: w3 :: w4 :: w5 :: w6 :: rest) info htas
  constructor
  · rw [hproj, hv, ← varioFIR_ok_iff w1 w2 w3 w4 w5 w6 rest]
    rcases h : (varioFIR (w1 :: w2 :: w3 :: w4 :: w5 :: w6 :: rest)).1 <;> simp [h]
  · intro v1 v2 v3 v4 v5 v6 h1 h2 h3 h4 h5 h6
    subst h1; subst h2; subst h3; subst h4; subst h5; subst h6
    rw [hproj, varioFIR_all_some]
    simp only [if_true]
    congr 1
    ring

/-- Witness for C9: six concrete samples produce exactly their dot product
with the FIR coefficients (airspeed 100 is in range). -/
theorem C9_witness :
    (LXWP0 [some 1, some 100, some 1000, some 1, some 2, some 3, some 4, some 5, some 6]
        { }).2.totalEnergyVario
      = some (1 * (-0.0421) + 2 * 0.1628 + 3 * 0.3793 + 4 * 0.3793 + 5 * 0.1628
          + 6 * (-0.0421)) :=
  (C9_vario_fir_filter (some 1) (some 100) (some 1000) (some 1) (some 2) (some 3)
      (some 4) (some 5) (some 6) [] { }
      (fun a ha => by injection ha with h; subst h; exact ⟨by norm_num, by norm_num⟩)
      rfl).2 1 2 3 4 5 6 rfl rfl rfl rfl rfl rfl

theorem retry5_eq_none (f : Nat → Option Nat) (h : ∀ a, a < 5 → f a = none) :
    retry5 f = none := by
  simp [retry5, firstSomeNat, h 0 (by norm_num), h 1 (by norm_num), h 2 (by norm_num),
    h 3 (by norm_num), h 4 (by norm_num)]

/-- Behaviour of the enumeration loop up to the first index `j` whose five
attempts all fail: the loop stops there with failure, keeping exactly the
entries of the indices `i+1, …, j-1` already enumerated. -/
theorem readFlightListLoop_spec (info : Nat → Nat → Option Nat) (g : Nat → Nat) (j : Nat)
    (hj : retry5 (fun a => info j a) = none) :
    ∀ k i acc, i < j → j ≤ i + k →
      (∀ t, i < t → t < j → retry5 (fun a => info t a) = some (g t)) →
      readFlightListLoop info k i acc =
        (false, acc ++ (List.range' (i + 1) (j - 1 - i)).map g) := by
  intro k
  induction k with
  | zero => intro i acc h1 h2 hg; omega
  | succ k ih =>
      intro i acc h1 h2 hg
      by_cases hij : i + 1 = j
      · rw [readFlightListLoop, hij, hj]
        have : j - 1 - i = 0 := by omega
        simp [this]
      · have hlt : i + 1 < j := by omega
        rw [readFlightListLoop, hg (i+1) (by omega) hlt]
        show readFlightListLoop info k (i + 1) (acc ++ [g (i + 1)]) =
          (false, acc ++ (List.range' (i + 1) (j - 1 - i)).map g)
        rw [ih (i+1) (acc ++ [g (i+1)]) hlt (by omega)
            (fun t ht1 ht2 => hg t (by omega) ht2)]
        have hn : j - 1 - i = (j - 1 - (i+1)) + 1 := by omega
        rw [hn, List.range'_succ]
        simp

/-- C7.  `ReadFlightList` requests flight info for the indices 1 up to the
reported count with up to 5 attempts each; if index `j` fails all 5 attempts
(all earlier indices having succeeded), it returns `false`, yet every entry
enumerated for indices `1, …, j-1` is present, in order, in the returned
list — and the receive thread is restarted. -/
theorem C7_partial_flight_list_on_failure (n j : Nat) (g : Nat → Nat)
    (info : Nat → Nat → Option Nat) (h1 : 1 ≤ j) (h2 : j ≤ n)
    (hg : ∀ t, 1 ≤ t → t < j → retry5 (fun a => info t a) = some (g t))
    (hj : ∀ a, a < 5 → info j a = none) :
    ReadFlightList (some n) info =
      { success := false, flights := (List.range' 1 (j - 1)).map g,
        rxRunning := true } := by
  have hj' : retry5 (fun a => info j a) = none := retry5_eq_none _ hj
  have h := readFlightListLoop_spec info g j hj' n 0 [] (by omega) (by omega)
    (fun t ht1 ht2 => hg t (by omega) ht2)
  show ({ success := (readFlightListLoop info n 0 []).1,
          flights := (readFlightListLoop info n 0 []).2,
          rxRunning := true } : FlightListResult) =
    { success := false, flights := (List.range' 1 (j - 1)).map g, rxRunning := true }
  rw [h]
  simp

/-- Witness for C7 at the spec's example: 5 reported flights, index 3 failing
all attempts, indices 1 and 2 enumerated — the result is failure with the
two entries preserved. -/
theorem C7_witness :
    ReadFlightList (some 5) (fun t _ => if t ≤ 2 then some (t * 10) else none) =
      { success := false, flights := [10, 20], rxRunning := true } :=
  (C7_partial_flight_list_on_failure 5 3 (fun t => t * 10)
    (fun t _ => if t ≤ 2 then some (t * 10) else none)
    (by norm_num) (by norm_num)
    (by intro t ht1 ht2; interval_cases t <;> rfl)
    (by intro a _; simp)).trans (by rfl)

/-- Counterexample to C1 as stated: with `file_size = 25` and device blocks
of sizes 10 and 20, the second block's size (20) exceeds the 15 outstanding
bytes and the download indeed aborts with `false` — but the offending block
HAS been written to the buffered output sink (`bos.Write` at line 86 runs
before the size check at line 89), so the sink holds both blocks. -/
theorem C1_counterexample :
    DownloadFlight 30 25 oversizeBlockDevice =
      some { success := false,
             sink := [List.replicate 10 7, List.replicate 20 7],
             committed := false, rxRunning := false } := by
  rfl

/-- C1 (amended).  Whenever `DownloadFlight`'s block loop receives a block
whose size exceeds the remaining outstanding byte count, the download aborts
returning `false`, the remaining-byte counter is not decremented and the
output is never committed — but only after the offending block has been
appended to the buffered output sink (and the Rx thread is left stopped). -/
theorem C1_oversize_block_aborts_after_write (blockOf : Nat → Nat → Option (List Nat))
    (fuel block_id rem : Nat) (sink : List (List Nat)) (block : List Nat)
    (hrem : 0 < rem)
    (hblk : retry5Block (fun a => blockOf (block_id % 65536) a) = some block)
    (hsz : rem < block.length) :
    downloadLoop blockOf (fuel+1) block_id rem sink =
      some { success := false, sink := sink ++ [block], committed := false,
             rxRunning := false } := by
  rw [downloadLoop, if_pos hrem, hblk]
  simp only []
  rw [if_pos hsz]

/-- Witness for the amended C1: a 6-byte block arriving with 5 bytes
outstanding is appended to the sink and the download aborts uncommitted. -/
theorem C1_witness :
    (0 < 5) ∧ (5 < (List.replicate 6 1).length) ∧
    downloadLoop (fun _ _ => some (List.replicate 6 1)) 1 0 5 [] =
      some { success := false, sink := [List.replicate 6 1], committed := false,
             rxRunning := false } :=
  ⟨by norm_num, by simp,
   C1_oversize_block_aborts_after_write (fun _ _ => some (List.replicate 6 1))
     0 0 5 [] (List.replicate 6 1) (by norm_num) rfl (by simp)⟩

/-- C2 settled against the code: `ReadFlightList` restarts the passive
receive thread on every exit path, but `DownloadFlight` does not — on the
size-violation path (blocks of sizes 10 and 16 against `file_size = 25`) it
returns `false` without ever reaching `port.StartRxThread()` (line 110),
leaving the receiver paused. -/
theorem C2_rx_thread_left_stopped_on_size_violation :
    (∀ (numFlights : Option Nat) (info : Nat → Nat → Option Nat),
        (ReadFlightList numFlights info).rxRunning = true) ∧
    DownloadFlight 30 25 oversizeBlockDevice2 =
      some { success := false,
             sink := [List.replicate 10 3, List.replicate 16 3],
             committed := false, rxRunning := false } := by
  constructor
  · intro nf info
    cases nf <;> rfl
  · rfl

end LXEos
